import Mathlib

set_option maxRecDepth 8000

/-!
Verification development for the ts_dream_common protocol engine.

Shallow embedding of:
- the JSON data model and the two schemas the claims depend on
  (`registry["command"]`, `registry["weather_info"]` in `schema_registry.py`);
- the device-side command executor and handlers
  (`MockDream` in `mock/dream.py`);
- the controller-side message classifier and command driver
  (`MockDreamClientRunner.process_dream_messages` in `bin/dream_client_runner.py`,
   `MockDreamClient.run_command` in `mock/dream_client.py`);
- the index generator (`index_generator.py`).
-/

/-- JSON values as produced by Python's `json.loads`.  Python distinguishes
`int` from `float` scalars, and draft-07 `"type": "integer"` matches `int`
instances, so the two are separate constructors.  Floats are carried
symbolically as rationals; no code under verification computes with them. -/
inductive Json where
  | int (n : Int)
  | float (x : Rat)
  | bool (b : Bool)
  | str (s : String)
  | arr (elems : List Json)
  | obj (fields : List (String × Json))
  | null
deriving Repr

mutual

def Json.decEq (a b : Json) : Decidable (a = b) := by
  cases a <;> cases b <;>
    try { apply isFalse; intro hc; injection hc }
  case int.int x y =>
    exact if h : x = y then isTrue (by rw [h])
      else isFalse (by intro hc; injection hc; contradiction)
  case float.float x y =>
    exact if h : x = y then isTrue (by rw [h])
      else isFalse (by intro hc; injection hc; contradiction)
  case bool.bool x y =>
    exact if h : x = y then isTrue (by rw [h])
      else isFalse (by intro hc; injection hc; contradiction)
  case str.str x y =>
    exact if h : x = y then isTrue (by rw [h])
      else isFalse (by intro hc; injection hc; contradiction)
  case arr.arr xs ys =>
    exact match Json.decEqList xs ys with
    | isTrue h => isTrue (by rw [h])
    | isFalse h => isFalse (by intro hc; injection hc; contradiction)
  case obj.obj xs ys =>
    exact match Json.decEqFields xs ys with
    | isTrue h => isTrue (by rw [h])
    | isFalse h => isFalse (by intro hc; injection hc; contradiction)
  case null.null =>
    exact isTrue rfl

def Json.decEqList (xs ys : List Json) : Decidable (xs = ys) :=
  match xs, ys with
  | [], [] => isTrue rfl
  | _ :: _, [] | [], _ :: _ => isFalse (by intro hc; exact List.noConfusion hc)
  | x :: xs, y :: ys =>
    match Json.decEq x y, Json.decEqList xs ys with
    | isTrue h1, isTrue h2 => isTrue (by rw [h1, h2])
    | isFalse h1, _ => isFalse (by intro hc; injection hc; contradiction)
    | _, isFalse h2 => isFalse (by intro hc; injection hc; contradiction)

def Json.decEqFields (xs ys : List (String × Json)) : Decidable (xs = ys) :=
  match xs, ys with
  | [], [] => isTrue rfl
  | _ :: _, [] | [], _ :: _ => isFalse (by intro hc; exact List.noConfusion hc)
  | (k1, v1) :: xs, (k2, v2) :: ys =>
    match String.decEq k1 k2, Json.decEq v1 v2, Json.decEqFields xs ys with
    | isTrue h1, isTrue h2, isTrue h3 => isTrue (by rw [h1, h2, h3])
    | isFalse h1, _, _ =>
        isFalse (by intro hc; injection hc with hp ht; injection hp; contradiction)
    | _, isFalse h2, _ =>
        isFalse (by intro hc; injection hc with hp ht; injection hp; contradiction)
    | _, _, isFalse h3 => isFalse (by intro hc; injection hc; contradiction)

end

instance : DecidableEq Json :=
  Json.decEq

/-- Model of `items[k]` on a decoded JSON value: field lookup on a JSON object.
On a non-object, Python raises `TypeError`; on a missing key, `KeyError`;
both are modelled as `none` (the caller treats `none` as an uncaught
exception). -/
def getItem (j : Json) (k : String) : Option Json :=
  match j with
  | .obj fields => List.lookup k fields
  | _ => none

/-- Model of `k in data` for a decoded JSON object (`False` on non-objects; the
client's `read` only ever hands the classifier decoded dicts). -/
def hasKey (j : Json) (k : String) : Bool :=
  match j with
  | .obj fields => fields.any (fun kv => kv.1 == k)
  | _ => false

def isInteger : Json → Bool
  | .int _ => true
  | _ => false

def isNumber : Json → Bool
  | .int _ => true
  | .float _ => true
  | _ => false

def isBoolean : Json → Bool
  | .bool _ => true
  | _ => false

def isObject : Json → Bool
  | .obj _ => true
  | _ => false

/-- The seven command keys of `registry["command"]`'s `"key"` enum, which is
also exactly the key set of `MockDream.dispatch_dict`. -/
def commandKeys : List String :=
  ["resume", "openRoof", "closeRoof", "stop", "readyForData", "dataArchived",
   "setWeatherInfo"]

def commandFieldNames : List String :=
  ["command_id", "key", "parameters", "time_command_sent"]

/-- Draft-07 validation of a decoded message against `registry["command"]`:
type object, the four required fields, `additionalProperties: false`,
`command_id` an integer, `key` in the seven-name enum, `parameters` an
object, `time_command_sent` a number. -/
def validateCommand (j : Json) : Bool :=
  match j with
  | .obj fields =>
      let keys := fields.map Prod.fst
      keys.all (fun k => commandFieldNames.contains k) &&
      commandFieldNames.all (fun k => keys.contains k) &&
      (match List.lookup "command_id" fields with
       | some v => isInteger v
       | none => true) &&
      (match List.lookup "key" fields with
       | some v => commandKeys.any (fun c => v == .str c)
       | none => true) &&
      (match List.lookup "parameters" fields with
       | some v => isObject v
       | none => true) &&
      (match List.lookup "time_command_sent" fields with
       | some v => isNumber v
       | none => true)
  | _ => false

def weatherFieldNames : List String :=
  ["temperature", "humidity", "wind_speed", "wind_direction", "pressure",
   "rain", "cloudcover", "safe_observing_conditions"]

/-- Draft-07 validation against `registry["weather_info"]`: type object, the
eight required fields, `additionalProperties: false`, seven numbers plus the
boolean `safe_observing_conditions`. -/
def validWeatherInfo (j : Json) : Bool :=
  match j with
  | .obj fields =>
      let keys := fields.map Prod.fst
      keys.all (fun k => weatherFieldNames.contains k) &&
      weatherFieldNames.all (fun k => keys.contains k) &&
      (match List.lookup "safe_observing_conditions" fields with
       | some v => isBoolean v
       | none => true) &&
      (["temperature", "humidity", "wind_speed", "wind_direction", "pressure",
        "rain", "cloudcover"].all (fun k =>
         match List.lookup k fields with
         | some v => isNumber v
         | none => true))
  | _ => false

/-- The `CommandResponse` enum from `enums.py` (IntEnum: ACK=1, LAST=2,
INVALID_JSON=3, COMMAND_FAILED=4). -/
inductive CommandResponse where
  | ACK
  | LAST
  | INVALID_JSON
  | COMMAND_FAILED
deriving DecidableEq, Repr

def CommandResponse.code : CommandResponse → Int
  | .ACK => 1
  | .LAST => 2
  | .INVALID_JSON => 3
  | .COMMAND_FAILED => 4

/-- The `RoofStatus` enum from `enums.py` (IntEnum: CLOSED=1, OPEN=2, OPENING=3,
CLOSING=4). -/
inductive RoofStatus where
  | CLOSED
  | OPEN
  | OPENING
  | CLOSING
deriving DecidableEq, Repr

/-- Constants from `mock/dream.py`: durations in seconds. -/
def ROOF_DURATION : Nat := 4

def STOP_DURATION : Nat := 1

/-- The weather singleton held by `MockDream.weather_info` (`WeatherInfo` in
`mock/dream.py`).  Each attribute holds the raw decoded JSON value that
`setattr` stored (floats initially `0.0`, the flag initially `False`). -/
structure WeatherInfo where
  temperature : Json := .float 0
  humidity : Json := .float 0
  wind_speed : Json := .float 0
  wind_direction : Json := .float 0
  pressure : Json := .float 0
  rain : Json := .float 0
  cloudcover : Json := .float 0
  safe_observing_conditions : Json := .bool false
deriving DecidableEq, Repr

/-- Model of `setattr(self.weather_info, k, v)` for the eight schema field names.
After weather-schema validation only these eight names can occur, so the
fall-through branch (Python would create a fresh attribute) is unreachable
from `set_weather_info`. -/
def setWeatherField (wi : WeatherInfo) (k : String) (v : Json) : WeatherInfo :=
  if k = "temperature" then { wi with temperature := v }
  else if k = "humidity" then { wi with humidity := v }
  else if k = "wind_speed" then { wi with wind_speed := v }
  else if k = "wind_direction" then { wi with wind_direction := v }
  else if k = "pressure" then { wi with pressure := v }
  else if k = "rain" then { wi with rain := v }
  else if k = "cloudcover" then { wi with cloudcover := v }
  else if k = "safe_observing_conditions" then
    { wi with safe_observing_conditions := v }
  else wi

/-- Model of `getattr(self.weather_info, k)` for the eight schema field names. -/
def getWeatherField (wi : WeatherInfo) (k : String) : Option Json :=
  if k = "temperature" then some wi.temperature
  else if k = "humidity" then some wi.humidity
  else if k = "wind_speed" then some wi.wind_speed
  else if k = "wind_direction" then some wi.wind_direction
  else if k = "pressure" then some wi.pressure
  else if k = "rain" then some wi.rain
  else if k = "cloudcover" then some wi.cloudcover
  else if k = "safe_observing_conditions" then
    some wi.safe_observing_conditions
  else none

/-- The loop `for key in weather_info: setattr(self.weather_info, key, weather_info[key])`
applied over the decoded mapping's fields in order. -/
def applyWeather (wi : WeatherInfo) (fields : List (String × Json)) :
    WeatherInfo :=
  fields.foldl (fun acc kv => setWeatherField acc kv.1 kv.2) wi

/-- Bookkeeping of the `asyncio` tasks the device spawns.  Task identities
are modelled by a running counter: `runningStatus` / `runningData` list the
ids of status-loop / data-product-loop tasks that have been started and not
cancelled, and `statusRef` / `dataRef` are the tasks currently stored in
`self.status_task` / `self.new_data_products_task` (initially pending
Futures, modelled as `none`). -/
structure TaskState where
  nextId : Nat := 1
  runningStatus : List Nat := []
  statusRef : Option Nat := none
  runningData : List Nat := []
  dataRef : Option Nat := none
deriving DecidableEq, Repr

/-- Model of `self.status_task.cancel()`: only the task currently referenced is
cancelled; any earlier, orphaned loop keeps running. -/
def cancelStatusTask (ts : TaskState) : TaskState :=
  { ts with runningStatus := ts.runningStatus.filter (fun i => some i ≠ ts.statusRef) }

/-- Model of `self.new_data_products_task.cancel()`. -/
def cancelDataTask (ts : TaskState) : TaskState :=
  { ts with runningData := ts.runningData.filter (fun i => some i ≠ ts.dataRef) }

/-- The mutable device state owned by `MockDream`: the roof status inside
`self.master_server_status`, the weather singleton, the
`client_ready_for_data` attribute (Python stores the raw argument), and the
spawned-task bookkeeping. -/
structure DeviceState where
  roofStatus : RoofStatus := .CLOSED
  weather : WeatherInfo := {}
  clientReadyForData : Json := .bool false
  tasks : TaskState := {}
deriving DecidableEq, Repr

def initialDevice : DeviceState := {}

/-- One observable step performed inside a command handler, in program
order: a roof-status mutation, an `asyncio.sleep`, a weather `setattr`, the
`client_ready_for_data` assignment, or spawning/cancelling a telemetry
task. -/
inductive HStep where
  | setRoof (rs : RoofStatus)
  | sleep (seconds : Nat)
  | setWeather (k : String) (v : Json)
  | setReady (v : Json)
  | spawnStatus (id : Nat)
  | cancelStatus
  | spawnData (id : Nat)
  | cancelData
deriving DecidableEq, Repr

/-- How a handler invocation ends: normal return, `raise RuntimeError(msg)`
(the only exception `execute_and_monitor_command` catches), or an uncaught
exception such as the `TypeError` raised when the spread `parameters` do not
match the handler's signature. -/
inductive HandlerOutcome where
  | ok
  | runtimeError (msg : String)
  | uncaught
deriving DecidableEq, Repr

structure HandlerResult where
  steps : List HStep
  state : DeviceState
  outcome : HandlerOutcome
deriving DecidableEq, Repr

/-- Python truthiness of a decoded JSON value (`if ready:` in
`set_ready_for_data`). -/
def truthy : Json → Bool
  | .int n => n ≠ 0
  | .float x => x ≠ 0
  | .bool b => b
  | .str s => s ≠ ""
  | .arr xs => ¬ xs.isEmpty
  | .obj fs => ¬ fs.isEmpty
  | .null => false

namespace MockDream

/-- Handler `MockDream.resume`: `self.status_task = asyncio.create_task(self.status())`.
A new status loop is spawned and the task reference is repointed to it;
the previously referenced task is NOT cancelled. -/
def resume (st : DeviceState) : HandlerResult :=
  let id := st.tasks.nextId
  { steps := [.spawnStatus id],
    state := { st with tasks :=
      { st.tasks with
          nextId := id + 1,
          runningStatus := st.tasks.runningStatus ++ [id],
          statusRef := some id } },
    outcome := .ok }

/-- Handler `MockDream.open_roof`: if the roof is CLOSED, set OPENING, sleep
`ROOF_DURATION`, set OPEN; otherwise `raise RuntimeError("Roof already open.")`
without touching the state. -/
def open_roof (st : DeviceState) : HandlerResult :=
  if st.roofStatus = RoofStatus.CLOSED then
    { steps := [.setRoof .OPENING, .sleep ROOF_DURATION, .setRoof .OPEN],
      state := { st with roofStatus := .OPEN },
      outcome := .ok }
  else
    { steps := [], state := st, outcome := .runtimeError "Roof already open." }

/-- Handler `MockDream.close_roof`: symmetric to `open_roof`. -/
def close_roof (st : DeviceState) : HandlerResult :=
  if st.roofStatus = RoofStatus.OPEN then
    { steps := [.setRoof .CLOSING, .sleep ROOF_DURATION, .setRoof .CLOSED],
      state := { st with roofStatus := .CLOSED },
      outcome := .ok }
  else
    { steps := [], state := st, outcome := .runtimeError "Roof already closed." }

/-- Handler `MockDream.stop`: sleep `STOP_DURATION`, then cancel the currently
referenced status task. -/
def stop (st : DeviceState) : HandlerResult :=
  { steps := [.sleep STOP_DURATION, .cancelStatus],
    state := { st with tasks := cancelStatusTask st.tasks },
    outcome := .ok }

/-- Handler `MockDream.set_ready_for_data(ready)`: store the raw argument in
`self.client_ready_for_data`; if truthy, spawn a new-data-products loop,
else cancel the currently referenced one. -/
def set_ready_for_data (v : Json) (st : DeviceState) : HandlerResult :=
  let st1 := { st with clientReadyForData := v }
  if truthy v then
    let id := st1.tasks.nextId
    { steps := [.setReady v, .spawnData id],
      state := { st1 with tasks :=
        { st1.tasks with
            nextId := id + 1,
            runningData := st1.tasks.runningData ++ [id],
            dataRef := some id } },
      outcome := .ok }
  else
    { steps := [.setReady v, .cancelData],
      state := { st1 with tasks := cancelDataTask st1.tasks },
      outcome := .ok }

/-- Handler `MockDream.set_data_archived`: a no-op acknowledgement hook. -/
def set_data_archived (st : DeviceState) : HandlerResult :=
  { steps := [], state := st, outcome := .ok }

/-- Handler `MockDream.set_weather_info(weather_info)`: validate the nested mapping
against `registry["weather_info"]`; on failure `raise RuntimeError("Invalid
weather information.")`; on success `setattr` every supplied field in
mapping order. -/
def set_weather_info (v : Json) (st : DeviceState) : HandlerResult :=
  if validWeatherInfo v then
    match v with
    | .obj fields =>
        { steps := fields.map (fun kv => HStep.setWeather kv.1 kv.2),
          state := { st with weather := applyWeather st.weather fields },
          outcome := .ok }
    | _ =>
        -- validWeatherInfo only accepts objects, so this branch is dead.
        { steps := [], state := st, outcome := .uncaught }
  else
    { steps := [], state := st,
      outcome := .runtimeError "Invalid weather information." }

/-- Model of `func = self.dispatch_dict[key]; await func(**kwargs)`.  Python binds the
spread `kwargs` to the handler's named parameters; a name or arity mismatch
raises `TypeError`, which `execute_and_monitor_command` does not catch
(modelled as `.uncaught`).  A key outside the table would raise `KeyError`
(also `.uncaught`), but schema validation makes that branch unreachable. -/
def dispatch (key : String) (kwargs : List (String × Json))
    (st : DeviceState) : HandlerResult :=
  if key = "resume" then
    match kwargs with
    | [] => resume st
    | _ => { steps := [], state := st, outcome := .uncaught }
  else if key = "openRoof" then
    match kwargs with
    | [] => open_roof st
    | _ => { steps := [], state := st, outcome := .uncaught }
  else if key = "closeRoof" then
    match kwargs with
    | [] => close_roof st
    | _ => { steps := [], state := st, outcome := .uncaught }
  else if key = "stop" then
    match kwargs with
    | [] => stop st
    | _ => { steps := [], state := st, outcome := .uncaught }
  else if key = "readyForData" then
    match kwargs with
    | [(n, v)] =>
        if n = "ready" then set_ready_for_data v st
        else { steps := [], state := st, outcome := .uncaught }
    | _ => { steps := [], state := st, outcome := .uncaught }
  else if key = "dataArchived" then
    match kwargs with
    | [] => set_data_archived st
    | _ => { steps := [], state := st, outcome := .uncaught }
  else if key = "setWeatherInfo" then
    match kwargs with
    | [(n, v)] =>
        if n = "weather_info" then set_weather_info v st
        else { steps := [], state := st, outcome := .uncaught }
    | _ => { steps := [], state := st, outcome := .uncaught }
  else { steps := [], state := st, outcome := .uncaught }

end MockDream

/-- A command response dict `{"command_id": ..., "command_response": ...}`
as built by `execute_and_monitor_command`; `command_id` is the raw value
taken from the incoming message. -/
structure Response where
  command_id : Json
  command_response : CommandResponse
deriving DecidableEq, Repr

def respJson (r : Response) : Json :=
  .obj [("command_id", r.command_id),
        ("command_response", .int r.command_response.code)]

namespace MockDream

/-- Method `MockDream.write(data)`: append one serialized message to the outbound
stream if a client is connected, otherwise do nothing; the method returns
normally in both cases. -/
def write (connected : Bool) (stream : List Json) (data : Json) :
    List Json :=
  if connected then stream ++ [data] else stream

end MockDream

/-- One incoming line handed to `execute_and_monitor_command`: either it
fails `json.loads` or it decodes to some JSON value. -/
inductive CommandLine where
  | undecodable
  | decoded (items : Json)
deriving DecidableEq, Repr

/-- The observable effect of one `execute_and_monitor_command` task:
response dicts passed to `self.write` before the handler runs
(`preWrites`), the handler's steps, response dicts written after it
(`postWrites`), the bytes that actually reached the outbound stream, the
device state left behind, and whether an uncaught exception killed the
task. -/
structure ExecResult where
  preWrites : List Response
  handlerInvoked : Bool
  handlerSteps : List HStep
  postWrites : List Response
  stream : List Json
  finalState : DeviceState
  crashed : Bool
deriving DecidableEq, Repr

namespace MockDream

/-- Method `MockDream.execute_and_monitor_command(line)`.  `json.loads` failure and
`items["command_id"]` lookup failure raise before anything is written; a
schema-invalid message gets exactly one INVALID_JSON; a schema-valid one
gets ACK, then the dispatched handler, then LAST on normal return or
COMMAND_FAILED on `RuntimeError`; any other exception escapes after the ACK
with no terminal response. -/
def execute_and_monitor_command (connected : Bool) (st : DeviceState)
    (line : CommandLine) : ExecResult :=
  match line with
  | .undecodable =>
      { preWrites := [], handlerInvoked := false, handlerSteps := [],
        postWrites := [], stream := [], finalState := st, crashed := true }
  | .decoded items =>
    match getItem items "command_id" with
    | none =>
        { preWrites := [], handlerInvoked := false, handlerSteps := [],
          postWrites := [], stream := [], finalState := st, crashed := true }
    | some cid =>
      if validateCommand items then
        let ack : Response := { command_id := cid, command_response := .ACK }
        match getItem items "key", getItem items "parameters" with
        | some (.str key), some (.obj kwargs) =>
          let hr := dispatch key kwargs st
          match hr.outcome with
          | .ok =>
            let last : Response := { command_id := cid, command_response := .LAST }
            { preWrites := [ack], handlerInvoked := true,
              handlerSteps := hr.steps, postWrites := [last],
              stream := write connected (write connected [] (respJson ack))
                (respJson last),
              finalState := hr.state, crashed := false }
          | .runtimeError _ =>
            let failed : Response :=
              { command_id := cid, command_response := .COMMAND_FAILED }
            { preWrites := [ack], handlerInvoked := true,
              handlerSteps := hr.steps, postWrites := [failed],
              stream := write connected (write connected [] (respJson ack))
                (respJson failed),
              finalState := hr.state, crashed := false }
          | .uncaught =>
            { preWrites := [ack], handlerInvoked := true,
              handlerSteps := hr.steps, postWrites := [],
              stream := write connected [] (respJson ack),
              finalState := hr.state, crashed := true }
        | _, _ =>
          -- Unreachable: validation guarantees a string key and an object
          -- `parameters` field.
          { preWrites := [ack], handlerInvoked := false, handlerSteps := [],
            postWrites := [], stream := write connected [] (respJson ack),
            finalState := st, crashed := true }
      else
        let inv : Response :=
          { command_id := cid, command_response := .INVALID_JSON }
        { preWrites := [inv], handlerInvoked := false, handlerSteps := [],
          postWrites := [], stream := write connected [] (respJson inv),
          finalState := st, crashed := false }

end MockDream

/-- Maximum allowed SAL index, `MAX_INDEX` in `index_generator.py`. -/
def MAX_INDEX : Int := (1 <<< 31) - 1

/-- The loop body of `index_impl` in `index_generator.py`: increment the
internal index, wrapping to `imin` after `imax`, and yield it. -/
def index_next (imin imax index : Int) : Int :=
  let index' := index + 1
  if index' > imax then imin else index'

/-- The value produced by the `n`-th call of `next` on the generator: the
internal index starts at `i0 - 1` and each call runs `index_next`. -/
def index_seq (imin imax i0 : Int) : Nat → Int
  | 0 => index_next imin imax (i0 - 1)
  | n + 1 => index_next imin imax (index_seq imin imax i0 n)

/-- Construction `index_generator(imin, imax, i0)`: argument checking happens at the
construction call (before any value is requested); on success the infinite
sequence is returned. -/
def index_generator (imin : Int := 1) (imax : Int := MAX_INDEX)
    (i0 : Option Int := none) : Except String (Nat → Int) :=
  let i0v := i0.getD imin
  if imax ≤ imin then
    .error "imin must be less than imax"
  else if ¬ (imin ≤ i0v ∧ i0v ≤ imax) then
    .error "i0 must be >= imin and <= imax"
  else
    .ok (index_seq imin imax i0v)

def isError {ε α : Type} : Except ε α → Bool
  | .error _ => true
  | .ok _ => false

namespace MockDreamClient

/-- The result of `MockDreamClient.run_command(command, **parameters)`: the
JSON dict written to the stream, the generator's internal index afterwards,
and the coroutine's return value.  The Python method is annotated
`-> None` and has no `return` statement, so the returned value is `none` —
the fresh `command_id` only appears inside the written message. -/
structure RunCommandResult where
  message : Json
  newIndex : Int
  ret : Option Int
deriving DecidableEq, Repr

/-- Method `MockDreamClient.run_command`.  The client's generator is
`index_generator()` with the defaults `imin = 1`, `imax = MAX_INDEX`,
`i0 = imin`; `curIndex` is its internal index (initially `i0 - 1 = 0`).
`t` is the `time_command_sent` timestamp. -/
def run_command (curIndex : Int) (command : String)
    (parameters : List (String × Json)) (t : Json) : RunCommandResult :=
  let cid := index_next 1 MAX_INDEX curIndex
  { message := .obj
      [("command_id", .int cid),
       ("key", .str command),
       ("parameters", .obj parameters),
       ("time_command_sent", t)],
    newIndex := cid,
    ret := none }

end MockDreamClient

/-- Replace-or-append update of a Python dict modelled as an association
list: `m[k] = v`. -/
def dictInsert {α β : Type} [DecidableEq α] :
    List (α × β) → α → β → List (α × β)
  | [], k, v => [(k, v)]
  | (k', v') :: tl, k, v =>
      if k' = k then (k, v) :: tl else (k', v') :: dictInsert tl k v

/-- Controller-side mirrors held by `MockDreamClientRunner`:
`master_server_state` and `roof_status` (initially the Python int `0`),
the command-status dict (whose keys are whatever value was used — the
integer ids stored by the classifier, or Python `None`, modelled as the
`Option` `none`, stored by the orchestrator), and the insertion-indexed
data-product dict. -/
structure ClientState where
  master_server_state : Json := .int 0
  roof_status : Json := .int 0
  command_status : List (Option Json × Json) := []
  data_products_received : List (Nat × Json) := []
deriving DecidableEq, Repr

def initialClient : ClientState := {}

/-- The update `self.data_products_received[len(self.data_products_received)] = d`
iterated over the received batch in order. -/
def appendProducts (dp : List (Nat × Json)) : List Json → List (Nat × Json)
  | [] => dp
  | d :: tl => appendProducts (dp ++ [(dp.length, d)]) tl

/-- How one iteration of `process_dream_messages` ends: a state update, the
explicit `raise RuntimeError` for an unclassifiable message, or an uncaught
lookup error on a missing field.  Either exception escapes the `while` loop
and is caught by the surrounding `except`, terminating the read loop. -/
inductive ProcessResult where
  | ok (cs : ClientState)
  | protocolError
  | lookupCrash
deriving DecidableEq, Repr

namespace MockDreamClientRunner

/-- The classification step of
`MockDreamClientRunner.process_dream_messages` for one decoded message. -/
def process_dream_message (cs : ClientState) (data : Json) : ProcessResult :=
  if hasKey data "device" then
    match getItem data "state", getItem data "roof_status" with
    | some s, some r =>
        .ok { cs with master_server_state := s, roof_status := r }
    | _, _ => .lookupCrash
  else if hasKey data "command_id" then
    match getItem data "command_id", getItem data "command_response" with
    | some cid, some resp =>
        .ok { cs with
          command_status := dictInsert cs.command_status (some cid) resp }
    | _, _ => .lookupCrash
  else if hasKey data "metadata" then
    match getItem data "amount", getItem data "metadata" with
    | some _, some (.arr items) =>
        .ok { cs with
          data_products_received :=
            appendProducts cs.data_products_received items }
    | _, _ => .lookupCrash
  else .protocolError

end MockDreamClientRunner

lemma index_seq_bounds (imin imax i0 : Int) (h1 : imin < imax)
    (h2 : imin ≤ i0) (h3 : i0 ≤ imax) (n : Nat) :
    imin ≤ index_seq imin imax i0 n ∧ index_seq imin imax i0 n ≤ imax := by
  induction n with
  | zero =>
      simp only [index_seq, index_next]
      split <;> omega
  | succ n ih =>
      simp only [index_seq, index_next]
      split <;> omega

/-- C5: for every valid configuration (min < max, initial in [min, max]) the
index generator construction succeeds and produces the sequence that starts
at `initial` and increments by 1, wrapping to `min` after `max`; in
particular `(min, max, initial) = (1, 3, 1)` yields 1,2,3,1,2,3,... -/
theorem index_generator_cyclic_sequence (imin imax i0 : Int)
    (h1 : imin < imax) (h2 : imin ≤ i0) (h3 : i0 ≤ imax) :
    index_generator imin imax (some i0) = .ok (index_seq imin imax i0)
    ∧ index_seq imin imax i0 0 = i0
    ∧ (∀ n, index_seq imin imax i0 (n + 1) =
        if index_seq imin imax i0 n = imax then imin
        else index_seq imin imax i0 n + 1)
    ∧ (List.range 6).map (index_seq 1 3 1) = [1, 2, 3, 1, 2, 3] := by
  refine ⟨?_, ?_, ?_, by decide⟩
  · simp only [index_generator, Option.getD]
    rw [if_neg (by omega), if_neg (by push_neg; omega)]
  · simp only [index_seq, index_next]
    split <;> omega
  · intro n
    obtain ⟨hlo, hhi⟩ := index_seq_bounds imin imax i0 h1 h2 h3 n
    simp only [index_seq, index_next]
    split <;> split <;> omega

theorem index_generator_cyclic_sequence_witness :
    index_generator 1 3 (some 2) = .ok (index_seq 1 3 2)
    ∧ index_seq 1 3 2 0 = 2
    ∧ (List.range 6).map (index_seq 1 3 1) = [1, 2, 3, 1, 2, 3] := by
  have h := index_generator_cyclic_sequence 1 3 2 (by decide) (by decide)
    (by decide)
  exact ⟨h.1, h.2.1, h.2.2.2⟩

/-- C6: construction of the index generator fails exactly when min ≥ max or
the (defaulted) initial value lies outside [min, max]; the argument checks
run at the construction call itself. -/
theorem index_generator_error_characterization (imin imax : Int)
    (i0 : Option Int) :
    isError (index_generator imin imax i0) = true ↔
      (imax ≤ imin ∨ i0.getD imin < imin ∨ imax < i0.getD imin) := by
  simp only [index_generator]
  split_ifs with ha hb <;> simp only [isError] <;>
    first
      | simp only [true_iff]; omega
      | (constructor
         · intro hc; exact absurd hc (by simp)
         · intro hc; exfalso; push_neg at hb; omega)

/-- C7 counterexample: issuing `resume` twice from the initial device state
leaves two status-broadcast loops running, so it is not the case that after
any sequence of resume commands at most one status loop is active. -/
theorem resume_twice_leaves_two_status_loops :
    ¬ (((MockDream.dispatch "resume" []
          ((MockDream.dispatch "resume" [] initialDevice).state)).state.tasks.runningStatus).length
        ≤ 1) := by decide

/-- Iterated `resume` commands (`k` handler invocations in sequence). -/
def resumeIter : Nat → DeviceState → DeviceState
  | 0, st => st
  | n + 1, st => resumeIter n (MockDream.dispatch "resume" [] st).state

lemma resumeIter_length (k : Nat) (st : DeviceState) :
    (resumeIter k st).tasks.runningStatus.length
      = st.tasks.runningStatus.length + k := by
  induction k generalizing st with
  | zero => simp [resumeIter]
  | succ n ih =>
      simp only [resumeIter, ih, MockDream.dispatch, MockDream.resume]
      simp
      omega

/-- C7 (amended): `resume` spawns a fresh status-broadcast loop and repoints
`self.status_task` to it without cancelling any previously started loop, so
`k` resume commands from the initial state leave `k` status loops running,
of which only the most recent is referenced (and hence cancellable by
`stop`). -/
theorem resume_accumulates_status_loops (st : DeviceState) (k : Nat) :
    ((MockDream.dispatch "resume" [] st).state.tasks.runningStatus
        = st.tasks.runningStatus ++ [st.tasks.nextId]
      ∧ (MockDream.dispatch "resume" [] st).state.tasks.statusRef
        = some st.tasks.nextId
      ∧ (MockDream.dispatch "resume" [] st).outcome = .ok)
    ∧ (resumeIter k initialDevice).tasks.runningStatus.length = k := by
  refine ⟨⟨?_, ?_, ?_⟩, ?_⟩
  · simp [MockDream.dispatch, MockDream.resume]
  · simp [MockDream.dispatch, MockDream.resume]
  · simp [MockDream.dispatch, MockDream.resume]
  · simpa [initialDevice] using resumeIter_length k initialDevice

/-- The first `run_command` issued over a fresh client connection
(`index_generator()` internal index 0): here for the `resume` command of
`execute_nominal_run`. -/
def firstResumeRun : MockDreamClient.RunCommandResult :=
  MockDreamClient.run_command 0 "resume" [] (.float 0)

/-- C9 (code bug): `run_command` writes a message carrying the fresh
command_id 1 but returns `None`, so the orchestrator records and polls the
command-status mapping under the key `None`; the classifier stores the
device's LAST response under the integer id 1, leaving the polled entry at
its initial 0, which never equals LAST (2) — the poll loop cannot
terminate. -/
theorem run_command_returns_none_so_poll_key_never_updates :
    firstResumeRun.ret = none
    ∧ getItem firstResumeRun.message "command_id" = some (.int 1)
    ∧ MockDreamClientRunner.process_dream_message
        { initialClient with command_status := [(none, .int 0)] }
        (.obj [("command_id", .int 1), ("command_response", .int 2)])
        = .ok { initialClient with
            command_status := [(none, .int 0), (some (.int 1), .int 2)] }
    ∧ List.lookup none
        [((none : Option Json), Json.int 0), (some (.int 1), .int 2)]
        = some (.int 0)
    ∧ (CommandResponse.LAST.code = 2 ∧ Json.int 0 ≠ Json.int 2) := by
  refine ⟨rfl, by decide, by decide, by decide, by decide, by decide⟩

/-- C10: `MockDream.write` with no client connected appends nothing to the
outbound stream and returns normally, so a full command execution after a
disconnect puts nothing on the wire while leaving exactly the same device
state as it would with a client connected. -/
theorem write_disconnected_discards_silently (st : DeviceState)
    (line : CommandLine) :
    (∀ stream data, MockDream.write false stream data = stream)
    ∧ (MockDream.execute_and_monitor_command false st line).stream = []
    ∧ (MockDream.execute_and_monitor_command false st line).finalState
        = (MockDream.execute_and_monitor_command true st line).finalState := by
  refine ⟨fun stream data => rfl, ?_, ?_⟩ <;>
    (cases line with
     | undecodable => rfl
     | decoded items =>
         simp only [MockDream.execute_and_monitor_command]
         cases hcid : getItem items "command_id" with
         | none => rfl
         | some cid =>
             by_cases hv : validateCommand items <;>
               simp only [hv, Bool.false_eq_true, if_true, if_false,
                 MockDream.write] <;>
               first
                 | rfl
                 | (split <;> (try split) <;> rfl))

def openRoofItems : Json :=
  .obj [("command_id", .int 1), ("key", .str "openRoof"),
        ("parameters", .obj []), ("time_command_sent", .float 0)]

def openRoofLine : CommandLine := .decoded openRoofItems

/-- C3: `openRoof` from CLOSED sets the roof to OPENING, sleeps the fixed
`ROOF_DURATION`, sets it to OPEN, and the command ends in LAST; from any
other roof state the command ends in COMMAND_FAILED with the device state
unchanged. -/
theorem open_roof_command (connected : Bool) (st : DeviceState) :
    (st.roofStatus = .CLOSED →
      (MockDream.execute_and_monitor_command connected st openRoofLine).handlerSteps
          = [.setRoof .OPENING, .sleep ROOF_DURATION, .setRoof .OPEN]
        ∧ (MockDream.execute_and_monitor_command connected st openRoofLine).finalState
          = { st with roofStatus := .OPEN }
        ∧ (MockDream.execute_and_monitor_command connected st openRoofLine).postWrites
          = [{ command_id := .int 1, command_response := .LAST }])
    ∧ (st.roofStatus ≠ .CLOSED →
        (MockDream.execute_and_monitor_command connected st openRoofLine).postWrites
          = [{ command_id := .int 1, command_response := .COMMAND_FAILED }]
        ∧ (MockDream.execute_and_monitor_command connected st openRoofLine).finalState
          = st) := by
  have hd : MockDream.dispatch "openRoof" [] st = MockDream.open_roof st := by
    simp [MockDream.dispatch]
  have hcid : getItem openRoofItems "command_id" = some (.int 1) := by decide
  have hval : validateCommand openRoofItems = true := by decide
  have hkey : getItem openRoofItems "key" = some (.str "openRoof") := by decide
  have hpar : getItem openRoofItems "parameters" = some (.obj []) := by decide
  constructor
  · intro h
    have hor : MockDream.open_roof st =
        { steps := [.setRoof .OPENING, .sleep ROOF_DURATION, .setRoof .OPEN],
          state := { st with roofStatus := .OPEN },
          outcome := .ok } := by
      simp [MockDream.open_roof, h]
    simp only [MockDream.execute_and_monitor_command, openRoofLine, hcid,
      hval, if_true, hkey, hpar, hd, hor]
    exact ⟨trivial, trivial, trivial⟩
  · intro h
    have hor : MockDream.open_roof st =
        { steps := [], state := st,
          outcome := .runtimeError "Roof already open." } := by
      simp [MockDream.open_roof, h]
    simp only [MockDream.execute_and_monitor_command, openRoofLine, hcid,
      hval, if_true, hkey, hpar, hd, hor]
    exact ⟨trivial, trivial⟩

theorem open_roof_command_witness :
    (MockDream.execute_and_monitor_command true initialDevice openRoofLine).postWrites
        = [{ command_id := .int 1, command_response := .LAST }]
    ∧ (MockDream.execute_and_monitor_command true
          { initialDevice with roofStatus := .OPEN } openRoofLine).postWrites
        = [{ command_id := .int 1, command_response := .COMMAND_FAILED }] :=
  ⟨((open_roof_command true initialDevice).1 (by decide)).2.2,
   ((open_roof_command true
      { initialDevice with roofStatus := .OPEN }).2 (by decide)).1⟩

/-- C1 (amended): for every line that passes command-schema validation and
whose `parameters` spread onto the dispatched handler without raising (the
schema does not check parameter names or arity), exactly one ACK carrying
the command_id is written before the handler is invoked and exactly one
terminal response with the same command_id after it: LAST if the handler
returns normally, COMMAND_FAILED if it raises `RuntimeError`; never both
and never zero. -/
theorem valid_command_one_ack_then_one_terminal (connected : Bool)
    (st : DeviceState) (items cid : Json) (key : String)
    (kwargs : List (String × Json))
    (hcid : getItem items "command_id" = some cid)
    (hval : validateCommand items = true)
    (hkey : getItem items "key" = some (.str key))
    (hpar : getItem items "parameters" = some (.obj kwargs))
    (hsig : (MockDream.dispatch key kwargs st).outcome ≠ .uncaught) :
    (MockDream.execute_and_monitor_command connected st (.decoded items)).preWrites
        = [{ command_id := cid, command_response := .ACK }]
    ∧ (MockDream.execute_and_monitor_command connected st (.decoded items)).handlerInvoked
        = true
    ∧ (MockDream.execute_and_monitor_command connected st (.decoded items)).crashed
        = false
    ∧ ((MockDream.dispatch key kwargs st).outcome = .ok →
        (MockDream.execute_and_monitor_command connected st (.decoded items)).postWrites
          = [{ command_id := cid, command_response := .LAST }])
    ∧ (∀ m, (MockDream.dispatch key kwargs st).outcome = .runtimeError m →
        (MockDream.execute_and_monitor_command connected st (.decoded items)).postWrites
          = [{ command_id := cid, command_response := .COMMAND_FAILED }]) := by
  simp only [MockDream.execute_and_monitor_command, hcid, hval, if_true, hkey,
    hpar]
  rcases hout : (MockDream.dispatch key kwargs st).outcome with _ | m <;>
    first
      | exact absurd hout hsig
      | simp [hout]

def dataArchivedItems : Json :=
  .obj [("command_id", .int 7), ("key", .str "dataArchived"),
        ("parameters", .obj []), ("time_command_sent", .float 0)]

theorem valid_command_one_ack_then_one_terminal_witness :
    (MockDream.execute_and_monitor_command true initialDevice
        (.decoded dataArchivedItems)).preWrites
      = [{ command_id := .int 7, command_response := .ACK }]
    ∧ (MockDream.execute_and_monitor_command true initialDevice
        (.decoded dataArchivedItems)).postWrites
      = [{ command_id := .int 7, command_response := .LAST }]
    ∧ (MockDream.execute_and_monitor_command true initialDevice
        (.decoded dataArchivedItems)).crashed = false := by
  have h := valid_command_one_ack_then_one_terminal true initialDevice
    dataArchivedItems (.int 7) "dataArchived" [] (by decide) (by decide)
    (by decide) (by decide) (by decide)
  exact ⟨h.1, h.2.2.2.1 (by decide), h.2.2.1⟩

def badResumeItems : Json :=
  .obj [("command_id", .int 1), ("key", .str "resume"),
        ("parameters", .obj [("foo", .int 1)]), ("time_command_sent", .float 0)]

/-- C1 counterexample: `{"command_id": 1, "key": "resume", "parameters":
{"foo": 1}, "time_command_sent": 0.0}` passes schema validation (the schema
only requires `parameters` to be an object), yet the spread onto
`resume()` raises `TypeError`, which is not caught: the task writes the ACK
and then dies, producing zero terminal responses. -/
theorem schema_valid_command_without_terminal_response :
    validateCommand badResumeItems = true
    ∧ (MockDream.execute_and_monitor_command true initialDevice
        (.decoded badResumeItems)).preWrites
      = [{ command_id := .int 1, command_response := .ACK }]
    ∧ (MockDream.execute_and_monitor_command true initialDevice
        (.decoded badResumeItems)).postWrites = []
    ∧ (MockDream.execute_and_monitor_command true initialDevice
        (.decoded badResumeItems)).crashed = true := by
  exact ⟨by decide, by decide, by decide, by decide⟩

/-- C2 (amended): a malformed line that decodes to an object carrying a
`command_id` field gets exactly one INVALID_JSON response with that
command_id, no ACK/LAST/COMMAND_FAILED, no handler invocation and no state
change; a line that fails JSON decoding, or decodes without a `command_id`
field, kills the executor task before anything is written, so no response
at all is emitted for it. -/
theorem malformed_line_responses (connected : Bool) (st : DeviceState) :
    (∀ items cid, getItem items "command_id" = some cid →
      validateCommand items = false →
      (MockDream.execute_and_monitor_command connected st (.decoded items)).preWrites
          = [{ command_id := cid, command_response := .INVALID_JSON }]
      ∧ (MockDream.execute_and_monitor_command connected st (.decoded items)).postWrites
          = []
      ∧ (MockDream.execute_and_monitor_command connected st (.decoded items)).handlerInvoked
          = false
      ∧ (MockDream.execute_and_monitor_command connected st (.decoded items)).crashed
          = false
      ∧ (MockDream.execute_and_monitor_command connected st (.decoded items)).finalState
          = st)
    ∧ (∀ items, getItem items "command_id" = none →
      (MockDream.execute_and_monitor_command connected st (.decoded items)).preWrites
          = []
      ∧ (MockDream.execute_and_monitor_command connected st (.decoded items)).postWrites
          = []
      ∧ (MockDream.execute_and_monitor_command connected st (.decoded items)).crashed
          = true)
    ∧ ((MockDream.execute_and_monitor_command connected st .undecodable).preWrites
          = []
      ∧ (MockDream.execute_and_monitor_command connected st .undecodable).postWrites
          = []
      ∧ (MockDream.execute_and_monitor_command connected st .undecodable).crashed
          = true) := by
  refine ⟨fun items cid hcid hinv => ?_, fun items hcid => ?_,
    ⟨rfl, rfl, rfl⟩⟩
  · simp [MockDream.execute_and_monitor_command, hcid, hinv]
  · simp [MockDream.execute_and_monitor_command, hcid]

def missingParametersItems : Json :=
  .obj [("command_id", .int 3), ("key", .str "resume"),
        ("time_command_sent", .float 0)]

def noCommandIdItems : Json :=
  .obj [("key", .str "resume"), ("parameters", .obj []),
        ("time_command_sent", .float 0)]

theorem malformed_line_responses_witness :
    (MockDream.execute_and_monitor_command true initialDevice
        (.decoded missingParametersItems)).preWrites
      = [{ command_id := .int 3, command_response := .INVALID_JSON }]
    ∧ (MockDream.execute_and_monitor_command true initialDevice
        (.decoded missingParametersItems)).postWrites = []
    ∧ (MockDream.execute_and_monitor_command true initialDevice
        (.decoded noCommandIdItems)).crashed = true := by
  have h := malformed_line_responses true initialDevice
  exact ⟨(h.1 missingParametersItems (.int 3) (by decide) (by decide)).1,
    (h.1 missingParametersItems (.int 3) (by decide) (by decide)).2.1,
    (h.2.1 noCommandIdItems (by decide)).2.2⟩

/-- C2 counterexample: `{"key": "resume", "parameters": {},
"time_command_sent": 0.0}` is malformed (the required field `command_id` is
missing), yet no INVALID_JSON is emitted: `items["command_id"]` raises
`KeyError` before validation, the task dies, and nothing at all is
written. -/
theorem missing_command_id_yields_no_response :
    validateCommand noCommandIdItems = false
    ∧ (MockDream.execute_and_monitor_command true initialDevice
        (.decoded noCommandIdItems)).preWrites = []
    ∧ (MockDream.execute_and_monitor_command true initialDevice
        (.decoded noCommandIdItems)).postWrites = []
    ∧ (MockDream.execute_and_monitor_command true initialDevice
        (.decoded noCommandIdItems)).stream = []
    ∧ (MockDream.execute_and_monitor_command true initialDevice
        (.decoded noCommandIdItems)).crashed = true := by
  exact ⟨by decide, by decide, by decide, by decide, by decide⟩

lemma getWeatherField_set_self (wi : WeatherInfo) (v : Json) (k : String)
    (hk : k ∈ weatherFieldNames) :
    getWeatherField (setWeatherField wi k v) k = some v := by
  simp only [weatherFieldNames, List.mem_cons, List.mem_singleton,
    List.not_mem_nil, or_false] at hk
  rcases hk with rfl | rfl | rfl | rfl | rfl | rfl | rfl | rfl <;> rfl

set_option maxHeartbeats 4000000 in
lemma getWeatherField_set_other (wi : WeatherInfo) (v : Json)
    (k k' : String) (hne : k' ≠ k) :
    getWeatherField (setWeatherField wi k' v) k = getWeatherField wi k := by
  unfold setWeatherField
  split_ifs <;> rename_i hsel
  case neg => rfl
  all_goals subst hsel
  all_goals simp only [getWeatherField]
  all_goals split_ifs <;>
    first
      | rfl
      | (rename_i hget; exact absurd hget.symm hne)

lemma getWeatherField_applyWeather_not_mem (fields : List (String × Json))
    (wi : WeatherInfo) (k : String) (h : k ∉ fields.map Prod.fst) :
    getWeatherField (applyWeather wi fields) k = getWeatherField wi k := by
  induction fields generalizing wi with
  | nil => rfl
  | cons kv tl ih =>
      simp only [List.map_cons, List.mem_cons, not_or] at h
      simp only [applyWeather, List.foldl_cons]
      rw [show List.foldl (fun acc kv => setWeatherField acc kv.1 kv.2)
            (setWeatherField wi kv.1 kv.2) tl
          = applyWeather (setWeatherField wi kv.1 kv.2) tl from rfl]
      rw [ih _ h.2, getWeatherField_set_other _ _ _ _ (fun hc => h.1 hc.symm)]

lemma getWeatherField_applyWeather (fields : List (String × Json))
    (wi : WeatherInfo) (k : String) (v : Json)
    (hnodup : (fields.map Prod.fst).Nodup)
    (hk : k ∈ weatherFieldNames)
    (hlk : List.lookup k fields = some v) :
    getWeatherField (applyWeather wi fields) k = some v := by
  induction fields generalizing wi with
  | nil => simp [List.lookup] at hlk
  | cons kv tl ih =>
      obtain ⟨k', v'⟩ := kv
      simp only [List.map_cons, List.nodup_cons] at hnodup
      simp only [List.lookup] at hlk
      by_cases heq : k = k'
      · subst heq
        simp only [beq_self_eq_true] at hlk
        injection hlk with hv
        simp only [applyWeather, List.foldl_cons]
        rw [show List.foldl (fun acc kv => setWeatherField acc kv.1 kv.2)
              (setWeatherField wi k v') tl
            = applyWeather (setWeatherField wi k v') tl from rfl]
        rw [getWeatherField_applyWeather_not_mem _ _ _ hnodup.1, ← hv]
        exact getWeatherField_set_self wi v' k hk
      · rw [show (k == k') = false from beq_eq_false_iff_ne.mpr heq] at hlk
        simp only [applyWeather, List.foldl_cons]
        rw [show List.foldl (fun acc kv => setWeatherField acc kv.1 kv.2)
              (setWeatherField wi k' v') tl
            = applyWeather (setWeatherField wi k' v') tl from rfl]
        exact ih _ hnodup.2 hlk

lemma lookup_isSome_of_mem_fst {fs : List (String × Json)} {k : String}
    (h : k ∈ fs.map Prod.fst) : ∃ v, List.lookup k fs = some v := by
  induction fs with
  | nil => simp at h
  | cons kv tl ih =>
      obtain ⟨k', v'⟩ := kv
      simp only [List.map_cons, List.mem_cons] at h
      by_cases heq : k = k'
      · exact ⟨v', by simp [List.lookup, heq]⟩
      · obtain ⟨v, hv⟩ := ih (h.resolve_left heq)
        exact ⟨v, by simp [List.lookup, beq_eq_false_iff_ne.mpr heq, hv]⟩

lemma validWeather_field_present {fs : List (String × Json)}
    (h : validWeatherInfo (.obj fs) = true) (k : String)
    (hk : k ∈ weatherFieldNames) : ∃ v, List.lookup k fs = some v := by
  simp only [validWeatherInfo, Bool.and_eq_true, List.all_eq_true] at h
  have hc := h.1.1.2 k hk
  refine lookup_isSome_of_mem_fst ?_
  simpa using hc

/-- The full command message `{"command_id": 1, "key": "setWeatherInfo",
"parameters": {"weather_info": fs}, "time_command_sent": 0.0}`. -/
def weatherItems (fs : List (String × Json)) : Json :=
  .obj [("command_id", .int 1), ("key", .str "setWeatherInfo"),
        ("parameters", .obj [("weather_info", .obj fs)]),
        ("time_command_sent", .float 0)]

/-- C4: `setWeatherInfo` is atomic with respect to the weather singleton:
a payload that passes the weather schema replaces every one of the eight
fields with exactly the supplied value and the command ends in LAST; a
payload that fails weather-schema validation leaves the device state
untouched and the command ends in COMMAND_FAILED. -/
theorem set_weather_info_atomicity (connected : Bool) (st : DeviceState)
    (fs : List (String × Json)) (hnodup : (fs.map Prod.fst).Nodup) :
    (validWeatherInfo (.obj fs) = true →
      (MockDream.execute_and_monitor_command connected st
          (.decoded (weatherItems fs))).postWrites
        = [{ command_id := .int 1, command_response := .LAST }]
      ∧ ∀ k, k ∈ weatherFieldNames →
          getWeatherField
            (MockDream.execute_and_monitor_command connected st
              (.decoded (weatherItems fs))).finalState.weather k
          = List.lookup k fs)
    ∧ (validWeatherInfo (.obj fs) = false →
      (MockDream.execute_and_monitor_command connected st
          (.decoded (weatherItems fs))).postWrites
        = [{ command_id := .int 1, command_response := .COMMAND_FAILED }]
      ∧ (MockDream.execute_and_monitor_command connected st
          (.decoded (weatherItems fs))).finalState = st) := by
  have hcid : getItem (weatherItems fs) "command_id" = some (.int 1) := rfl
  have hval : validateCommand (weatherItems fs) = true := rfl
  have hkey : getItem (weatherItems fs) "key"
      = some (.str "setWeatherInfo") := rfl
  have hpar : getItem (weatherItems fs) "parameters"
      = some (.obj [("weather_info", .obj fs)]) := rfl
  have hd : MockDream.dispatch "setWeatherInfo" [("weather_info", .obj fs)] st
      = MockDream.set_weather_info (.obj fs) st := by
    simp [MockDream.dispatch]
  constructor
  · intro hw
    have hsw : MockDream.set_weather_info (.obj fs) st =
        { steps := fs.map (fun kv => HStep.setWeather kv.1 kv.2),
          state := { st with weather := applyWeather st.weather fs },
          outcome := .ok } := by
      simp [MockDream.set_weather_info, hw]
    simp only [MockDream.execute_and_monitor_command, hcid, hval, if_true,
      hkey, hpar, hd, hsw]
    refine ⟨trivial, fun k hk => ?_⟩
    obtain ⟨v, hv⟩ := validWeather_field_present hw k hk
    rw [hv]
    exact getWeatherField_applyWeather fs st.weather k v hnodup hk hv
  · intro hw
    have hsw : MockDream.set_weather_info (.obj fs) st =
        { steps := [], state := st,
          outcome := .runtimeError "Invalid weather information." } := by
      simp [MockDream.set_weather_info, hw]
    simp only [MockDream.execute_and_monitor_command, hcid, hval, if_true,
      hkey, hpar, hd, hsw]
    exact ⟨trivial, trivial⟩

def goodWeatherFields : List (String × Json) :=
  [("temperature", .float 5), ("humidity", .float 50),
   ("wind_speed", .float 3), ("wind_direction", .float 90),
   ("pressure", .float 90000), ("rain", .float 0),
   ("cloudcover", .float 10), ("safe_observing_conditions", .bool true)]

def badWeatherFields : List (String × Json) :=
  [("temp", .float 5), ("hum", .float 50),
   ("wind_speed", .float 3), ("wind_dir", .float 90),
   ("pressure", .float 90000), ("rain", .float 0),
   ("cloudcover", .float 10), ("safe_to_observe", .bool true)]

theorem set_weather_info_atomicity_witness :
    (MockDream.execute_and_monitor_command true initialDevice
        (.decoded (weatherItems goodWeatherFields))).postWrites
      = [{ command_id := .int 1, command_response := .LAST }]
    ∧ getWeatherField
        (MockDream.execute_and_monitor_command true initialDevice
          (.decoded (weatherItems goodWeatherFields))).finalState.weather
        "temperature"
      = some (.float 5)
    ∧ (MockDream.execute_and_monitor_command true initialDevice
        (.decoded (weatherItems badWeatherFields))).postWrites
      = [{ command_id := .int 1, command_response := .COMMAND_FAILED }]
    ∧ (MockDream.execute_and_monitor_command true initialDevice
        (.decoded (weatherItems badWeatherFields))).finalState
      = initialDevice := by
  have hgood := (set_weather_info_atomicity true initialDevice
    goodWeatherFields (by decide)).1 (by decide)
  have hbad := (set_weather_info_atomicity true initialDevice
    badWeatherFields (by decide)).2 (by decide)
  refine ⟨hgood.1, ?_, hbad.1, hbad.2⟩
  rw [hgood.2 "temperature" (by decide)]
  decide

